import Mathlib

/-!
Shallow embedding of `apiverve_zipcodeslookup/apiClient.py` (the zip-codes
lookup API client) and proofs about its validation and request lifecycle.

Python values that can appear as request parameters or JSON envelope fields
are modelled by `Value`; Python dictionaries by association lists; the HTTP
transport by an oracle argument describing what `requests` would do.
Floating-point numbers are modelled over `ℚ` (the validator only compares
parsed numbers against integer schema bounds; no claim observes rounding).
-/

namespace Zipcodes

/-- A Python value as it can appear in request parameters or in the parsed
JSON response envelope: `None`, `bool`, `int`, `str`, or `list`. -/
inductive Value where
  | vNone : Value
  | vBool (b : Bool) : Value
  | vInt (n : Int) : Value
  | vStr (s : String) : Value
  | vList (elems : List Value) : Value

/-- Request parameters: a Python dict from parameter name to value. -/
abbrev RequestParams := List (String × Value)

/-- A parsed JSON response envelope: a Python dict. -/
abbrev Envelope := List (String × Value)

/-- `value is None`. -/
def Value.isNone : Value → Bool
  | .vNone => true
  | _ => false

/-- `isinstance(value, str)`. -/
def Value.isStr : Value → Bool
  | .vStr _ => true
  | _ => false

/-- `isinstance(value, bool)`. -/
def Value.isBool : Value → Bool
  | .vBool _ => true
  | _ => false

/-- `isinstance(value, list)`. -/
def Value.isList : Value → Bool
  | .vList _ => true
  | _ => false

mutual

/-- Python `==` on the modelled values.  Note that in Python `True == 1`
and `False == 0` (bool is a subclass of int); strings compare by content;
lists compare elementwise. -/
def pyEq : Value → Value → Bool
  | .vNone, .vNone => true
  | .vBool a, .vBool b => a == b
  | .vBool a, .vInt n => (if a then (1 : Int) else 0) == n
  | .vInt n, .vBool b => n == (if b then (1 : Int) else 0)
  | .vInt m, .vInt n => m == n
  | .vStr s, .vStr t => s == t
  | .vList xs, .vList ys => pyEqList xs ys
  | _, _ => false

/-- Elementwise Python `==` on lists. -/
def pyEqList : List Value → List Value → Bool
  | [], [] => true
  | x :: xs, y :: ys => pyEq x y && pyEqList xs ys
  | _, _ => false

end

/-- Python `value in l` membership test (via `==`). -/
def pyInList (v : Value) (l : List Value) : Bool :=
  l.any (fun x => pyEq v x)

mutual

/-- Python `str(value)` for the modelled values (used by the enum message:
`', '.join(map(str, rules['enum']))`).  String escaping inside `repr` of
list elements is not modelled (no claim observes it). -/
def pyStr : Value → String
  | .vNone => "None"
  | .vBool b => if b then "True" else "False"
  | .vInt n => toString n
  | .vStr s => s
  | .vList xs => "[" ++ String.intercalate ", " (pyReprList xs) ++ "]"

/-- Python `repr(value)` (as used when a value is printed inside a list). -/
def pyRepr : Value → String
  | .vNone => "None"
  | .vBool b => if b then "True" else "False"
  | .vInt n => toString n
  | .vStr s => "'" ++ s ++ "'"
  | .vList xs => "[" ++ String.intercalate ", " (pyReprList xs) ++ "]"

/-- `repr` of every element of a list. -/
def pyReprList : List Value → List String
  | [] => []
  | v :: vs => pyRepr v :: pyReprList vs

end

/-- ASCII whitespace as recognised by Python's `str.strip()` / regex `\s`
(Python also strips some further Unicode whitespace; no claim observes
those characters' classification). -/
def pyIsSpace (c : Char) : Bool :=
  c = ' ' || c = '\t' || c = '\n' || c = '\r' || c = '\x0b' || c = '\x0c'

/-- Strip leading and trailing whitespace from a character list. -/
def stripWs (l : List Char) : List Char :=
  ((l.dropWhile pyIsSpace).reverse.dropWhile pyIsSpace).reverse

/-- Digits of a numeral to the natural number they denote. -/
def digitsToNat (l : List Char) : Nat :=
  l.foldl (fun acc c => acc * 10 + (c.toNat - '0'.toNat)) 0

/-- Parse a nonempty all-digit character list. -/
def parseDigitsNat (l : List Char) : Option Nat :=
  if !l.isEmpty && l.all Char.isDigit then some (digitsToNat l) else none

/-- Python `int(s)` on a string: strip whitespace, optional sign, digits.
(Underscore digit grouping and non-ASCII digits are not modelled; no claim
exercises them.) -/
def pyIntOfString (s : String) : Option Int :=
  match stripWs s.data with
  | '+' :: r => (parseDigitsNat r).map Int.ofNat
  | '-' :: r => (parseDigitsNat r).map (fun n => -(n : Int))
  | r => (parseDigitsNat r).map Int.ofNat

/-- Python `int(value)`: ints pass through, bools coerce to 0/1, strings
are parsed, everything else raises `TypeError` (modelled as `none`). -/
def pyIntOfValue : Value → Option Int
  | .vBool b => some (if b then 1 else 0)
  | .vInt n => some n
  | .vStr s => pyIntOfString s
  | _ => none

/-- Parse the body of a decimal literal: `digits`, `digits.`, `.digits`
or `digits.digits`. -/
def pyFloatBody (l : List Char) : Option ℚ :=
  let ip := l.takeWhile Char.isDigit
  let rest := l.dropWhile Char.isDigit
  match rest with
  | [] => if ip.isEmpty then none else some ((digitsToNat ip : ℚ))
  | '.' :: fr =>
      if fr.all Char.isDigit && (!ip.isEmpty || !fr.isEmpty) then
        some ((digitsToNat ip : ℚ) + (digitsToNat fr : ℚ) / ((10 : ℚ) ^ fr.length))
      else none
  | _ => none

/-- Python `float(s)` on a string: strip whitespace, optional sign, decimal
literal.  (Exponent notation, `inf`/`nan` and underscore grouping are not
modelled; no claim exercises them.) -/
def pyFloatOfString (s : String) : Option ℚ :=
  match stripWs s.data with
  | '+' :: r => pyFloatBody r
  | '-' :: r => (pyFloatBody r).map Neg.neg
  | r => pyFloatBody r

/-- Python `float(value)`: numbers pass through, bools coerce to 0/1,
strings are parsed, everything else raises `TypeError`. -/
def pyFloatOfValue : Value → Option ℚ
  | .vBool b => some (if b then 1 else 0)
  | .vInt n => some (n : ℚ)
  | .vStr s => pyFloatOfString s
  | _ => none

/-- `params.get(name)`: the bound value, or `None` when the key is absent. -/
def pyGet (ps : RequestParams) (k : String) : Value :=
  (List.lookup k ps).getD .vNone

/-- `env.get(k)` on the parsed envelope (no default). -/
def envGet (env : Envelope) (k : String) : Option Value :=
  List.lookup k env

/-! ### Format patterns

`re.match(pattern, value, re.IGNORECASE)` for the five entries of
`FORMAT_PATTERNS`, implemented directly as character-list predicates (the
spec explicitly allows equivalent matching semantics).  Python's `$`
matches at the end of the string or just before one trailing newline;
`pyFullMatch` implements this for the `^...$`-anchored patterns. -/

/-- `re.match` of an `^...$`-anchored pattern whose core (full-string)
semantics is `core`: Python's `$` also matches just before a single
trailing newline. -/
def pyFullMatch (core : List Char → Bool) (l : List Char) : Bool :=
  core l || ((l.getLast? == some '\n') && core l.dropLast)

/-- A character matched by `[^\s@]`. -/
def emailChar (c : Char) : Bool :=
  !pyIsSpace c && c ≠ '@'

/-- Full-string semantics of `[^\s@]+@[^\s@]+\.[^\s@]+`: exactly one `@`,
a nonempty local part, and a domain part with a dot that is neither its
first nor its last character. -/
def emailCore (l : List Char) : Bool :=
  match l.splitOn '@' with
  | [a, b] =>
      !a.isEmpty && a.all emailChar && !b.isEmpty && b.all emailChar &&
        ((b.drop 1).dropLast.contains '.')
  | _ => false

/-- `re.match(r'^https?://.+', value, re.IGNORECASE)`: a prefix match, so
the value must start with `http://` or `https://` (case-insensitively)
followed by at least one non-newline character. -/
def urlMatch (l : List Char) : Bool :=
  let low := l.map Char.toLower
  (low.take 7 = "http://".data && (match l.drop 7 with
      | c :: _ => c ≠ '\n'
      | [] => false))
  || (low.take 8 = "https://".data && (match l.drop 8 with
      | c :: _ => c ≠ '\n'
      | [] => false))

/-- One IPv4 octet per `25[0-5]|2[0-4][0-9]|[01]?[0-9][0-9]?`. -/
def ipv4Octet (l : List Char) : Bool :=
  match l with
  | [a] => a.isDigit
  | [a, b] => a.isDigit && b.isDigit
  | [a, b, c] =>
      ((a = '0' || a = '1') && b.isDigit && c.isDigit) ||
      (a = '2' && ('0' ≤ b && b ≤ '4') && c.isDigit) ||
      (a = '2' && b = '5' && ('0' ≤ c && c ≤ '5'))
  | _ => false

/-- A hexadecimal digit (either case, matching `[0-9a-fA-F]`). -/
def hexDigit (c : Char) : Bool :=
  c.isDigit || ('a' ≤ c && c ≤ 'f') || ('A' ≤ c && c ≤ 'F')

/-- Full-string semantics of the `ip` pattern: a dotted-quad IPv4 address
or a full 8-group IPv6 address. -/
def ipCore (l : List Char) : Bool :=
  (match l.splitOn '.' with
   | [a, b, c, d] => ipv4Octet a && ipv4Octet b && ipv4Octet c && ipv4Octet d
   | _ => false)
  || (let gs := l.splitOn ':'
      gs.length = 8 && gs.all (fun g => 1 ≤ g.length && g.length ≤ 4 && g.all hexDigit))

/-- Full-string semantics of `\d{4}-\d{2}-\d{2}`. -/
def dateCore (l : List Char) : Bool :=
  match l with
  | [a, b, c, d, h1, e, f, h2, g, i] =>
      a.isDigit && b.isDigit && c.isDigit && d.isDigit && h1 = '-' &&
        e.isDigit && f.isDigit && h2 = '-' && g.isDigit && i.isDigit
  | _ => false

/-- Full-string semantics of `#?([0-9a-fA-F]{3}|[0-9a-fA-F]{6})`. -/
def hexColorCore (l : List Char) : Bool :=
  let body := match l with
    | '#' :: r => r
    | r => r
  (body.length = 3 || body.length = 6) && body.all hexDigit

/-- Whether a format tag is a key of `FORMAT_PATTERNS`. -/
def formatKnown (f : String) : Bool :=
  f = "email" || f = "url" || f = "ip" || f = "date" || f = "hexColor"

/-- `re.match(FORMAT_PATTERNS[fmt], s, re.IGNORECASE)` for a recognised
format tag. -/
def formatMatches (fmt : String) (s : String) : Bool :=
  match fmt with
  | "email" => pyFullMatch emailCore s.data
  | "url" => urlMatch s.data
  | "ip" => pyFullMatch ipCore s.data
  | "date" => pyFullMatch dateCore s.data
  | "hexColor" => pyFullMatch hexColorCore s.data
  | _ => false

/-! ### The validator (`_validate_params`) -/

/-- One entry of the validation-rule table: the recognised keys of a rule
dict (`type` defaults to `'string'` via `rules.get('type', 'string')`;
the others are absent unless present in the dict). -/
structure Rule where
  type : String := "string"
  required : Bool := false
  min : Option Int := none
  max : Option Int := none
  minLength : Option Nat := none
  maxLength : Option Nat := none
  format : Option String := none
  enum : Option (List Value) := none

/-- The rule dict for `zip`:
`{"type": "string", "required": True, "minLength": 5, "maxLength": 5}`. -/
def zipRule : Rule :=
  { type := "string", required := true, minLength := some 5, maxLength := some 5 }

/-- `VALIDATION_RULES`: the static rule table generated from the schema —
`zip` is a required string of exactly 5 characters. -/
def VALIDATION_RULES : List (String × Rule) := [("zip", zipRule)]

/-- The enum check (`if 'enum' in rules and value not in rules['enum']`). -/
def enumErrors (name : String) (rule : Rule) (value : Value) : List String :=
  match rule.enum with
  | some es =>
      if pyInList value es then []
      else ["Parameter [" ++ name ++ "] must be one of: " ++
              String.intercalate ", " (es.map pyStr) ++ "."]
  | none => []

/-- The `min`/`max` bound checks for an `integer`-typed parameter. -/
def intBoundErrors (name : String) (rule : Rule) (n : Int) : List String :=
  (match rule.min with
   | some m => if n < m then ["Parameter [" ++ name ++ "] must be at least " ++ toString m ++ "."] else []
   | none => []) ++
  (match rule.max with
   | some m => if n > m then ["Parameter [" ++ name ++ "] must be at most " ++ toString m ++ "."] else []
   | none => [])

/-- The `min`/`max` bound checks for a `number`-typed parameter. -/
def numBoundErrors (name : String) (rule : Rule) (q : ℚ) : List String :=
  (match rule.min with
   | some m => if q < (m : ℚ) then ["Parameter [" ++ name ++ "] must be at least " ++ toString m ++ "."] else []
   | none => []) ++
  (match rule.max with
   | some m => if q > (m : ℚ) then ["Parameter [" ++ name ++ "] must be at most " ++ toString m ++ "."] else []
   | none => [])

/-- The `minLength`/`maxLength` checks for a `string`-typed parameter. -/
def lengthErrors (name : String) (rule : Rule) (s : String) : List String :=
  (match rule.minLength with
   | some m => if s.length < m then ["Parameter [" ++ name ++ "] must be at least " ++ toString m ++ " characters."] else []
   | none => []) ++
  (match rule.maxLength with
   | some m => if s.length > m then ["Parameter [" ++ name ++ "] must be at most " ++ toString m ++ " characters."] else []
   | none => [])

/-- The format check for a `string`-typed parameter (`if 'format' in rules
and rules['format'] in self.FORMAT_PATTERNS`). -/
def formatErrors (name : String) (rule : Rule) (s : String) : List String :=
  match rule.format with
  | some f =>
      if formatKnown f && !formatMatches f s then
        ["Parameter [" ++ name ++ "] must be a valid " ++ f ++ "."]
      else []
  | none => []

/-- The type-specific checks of one loop iteration of `_validate_params`.
Returns the emitted messages together with whether the iteration executed
`continue` (which skips the enum check): `continue` happens exactly when
`int(value)`/`float(value)` raises for an `integer`/`number`-typed rule,
or when a `string`-typed value is not a `str`. -/
def typeCheck (name : String) (rule : Rule) (value : Value) : List String × Bool :=
  match rule.type with
  | "integer" =>
      (match pyIntOfValue value with
       | some n => (intBoundErrors name rule n, false)
       | none => (["Parameter [" ++ name ++ "] must be a valid integer."], true))
  | "number" =>
      (match pyFloatOfValue value with
       | some q => (numBoundErrors name rule q, false)
       | none => (["Parameter [" ++ name ++ "] must be a valid number."], true))
  | "string" =>
      (match value with
       | .vStr s => (lengthErrors name rule s ++ formatErrors name rule s, false)
       | _ => (["Parameter [" ++ name ++ "] must be a string."], true))
  | "boolean" =>
      (if value.isBool || pyInList value [.vStr "true", .vStr "false", .vBool true, .vBool false]
       then [] else ["Parameter [" ++ name ++ "] must be a boolean."], false)
  | "array" =>
      (if value.isList then [] else ["Parameter [" ++ name ++ "] must be an array."], false)
  | _ => ([], false)

/-- One loop iteration of `_validate_params` for parameter `name` with
rule `rule`: the messages it appends to `errors` (`value` is
`params.get(param_name)`, i.e. `pyGet params name`). -/
def paramErrors (params : RequestParams) (name : String) (rule : Rule) : List String :=
  if rule.required && ((pyGet params name).isNone || pyEq (pyGet params name) (.vStr "")) then
    ["Required parameter [" ++ name ++ "] is missing."]
  else if (pyGet params name).isNone then []
  else if (typeCheck name rule (pyGet params name)).2 then
    (typeCheck name rule (pyGet params name)).1
  else
    (typeCheck name rule (pyGet params name)).1 ++ enumErrors name rule (pyGet params name)

/-- The whole `for param_name, rules in self.VALIDATION_RULES.items()`
loop: messages accumulate across parameters in rule-table order. -/
def runRules (params : RequestParams) : List (String × Rule) → List String
  | [] => []
  | (n, r) :: rest => paramErrors params n r ++ runRules params rest

/-- `_validate_params(params)`: `params = params or {}`, run all rules,
and raise `ValidationError(errors)` when any message accumulated. -/
def validateParamsRaise (rules : List (String × Rule)) (params : Option RequestParams) :
    Except (List String) Unit :=
  if rules.isEmpty then .ok ()
  else
    let errs := runRules (params.getD []) rules
    if errs.isEmpty then .ok () else .error errs

/-! ### API-key validation and client construction -/

/-- A character of the class `[a-zA-Z0-9_-]`. -/
def keyCharOk (c : Char) : Bool :=
  (('a' ≤ c && c ≤ 'z') || ('A' ≤ c && c ≤ 'Z') || c.isDigit || c = '-' || c = '_')

/-- `re.match(r'^[a-zA-Z0-9_-]+$', api_key)`: a nonempty run of class
characters, where Python's `$` also matches just before one trailing
newline. -/
def keyRegexMatches (l : List Char) : Bool :=
  pyFullMatch (fun m => !m.isEmpty && m.all keyCharOk) l

/-- `api_key.replace('-', '').replace('_', '')`: removing every hyphen and
then every underscore is filtering both characters out. -/
def strippedKey (key : String) : List Char :=
  key.data.filter (fun c => c ≠ '-' && c ≠ '_')

/-- `_validate_api_key`: returns the error message raised as a
`ZipcodesAPIClientError`, or `none` when the key is accepted. -/
def validateApiKey (key : String) : Option String :=
  if key = "" || key.data.all pyIsSpace then
    some "API key is required. Get your API key at: https://apiverve.com"
  else if !keyRegexMatches key.data then
    some ("Invalid API key format. API key should only contain letters, numbers, hyphens, and underscores. " ++
      "Get your API key at: https://apiverve.com")
  else if (strippedKey key).length < 32 then
    some ("Invalid API key. API key appears to be too short. " ++
      "Get your API key at: https://apiverve.com")
  else none

/-- The configuration a constructed client holds (the derived `base_url`,
`headers` and session are functions of these fields). -/
structure Client where
  api_key : String
  secure : Bool
  debug : Bool

/-- `'https://api.apiverve.com/v1/zipcodes'`. -/
def baseUrl : String := "https://api.apiverve.com/v1/zipcodes"

/-- The default headers installed on the session at construction. -/
def Client.headers (c : Client) : List (String × String) :=
  [("x-api-key", c.api_key), ("auth-mode", "pypi-package")]

/-- `ZipcodesAPIClient.__init__`: validate the key, then store the
configuration.  A raised `ZipcodesAPIClientError` is the `.error` case. -/
def Client.init (api_key : String) (secure : Bool := true) (debug : Bool := false) :
    Except String Client :=
  match validateApiKey api_key with
  | some msg => .error msg
  | none => .ok { api_key := api_key, secure := secure, debug := debug }

/-! ### The request lifecycle (`execute`) -/

/-- What the transport (`requests`) does for the single GET issued by
`execute`: raise one of the three handled exception classes (dispatched to
the matching `except` clause), or deliver a response with a status code
and a body that either parses as a JSON object or raises `ValueError`
(carried as the parse-error description `str(e)`). -/
inductive TransportResult where
  | timeout (msg : String)
  | connectionError (msg : String)
  | requestException (msg : String)
  | response (statusCode : Nat) (body : Except String Envelope)

/-- The observable outcome of `execute`: the returned envelope, a raised
`ValidationError` (with its `errors` list), or a raised
`ZipcodesAPIClientError` (with its `message`, `status_code` and
`response` attributes). -/
inductive ExecOutcome where
  | success (envelope : Envelope)
  | validationError (errors : List String)
  | clientError (message : Value) (statusCode : Option Nat) (response : Option Envelope)

/-- One `self._log(...)` call site in `execute`, with the data the
formatted message would carry (the string formatting itself is irrelevant
to every claim). -/
inductive LogEvent where
  | makingRequest
  | parameters (ps : RequestParams)
  | sendingGet
  | responseStatus (code : Nat)
  | apiError (msg : Value)
  | httpError (msg : Value)
  | requestSuccessful
  | timeoutEvt (msg : String)
  | connectionEvt (msg : String)
  | requestExcEvt (msg : String)

/-- `_log`: appends the event when `debug` is enabled, otherwise nothing. -/
def logIf (debug : Bool) (e : LogEvent) : List LogEvent :=
  if debug then [e] else []

/-- `requests.Response.ok`: `raise_for_status` raises exactly for status
codes in `[400, 600)`, so `ok` is their complement. -/
def responseOk (code : Nat) : Bool :=
  !(400 ≤ code && code < 600)

/-- The result of one `execute` call: its outcome, whether the HTTP
request was issued, and the debug log produced along the way. -/
structure ExecResult where
  outcome : ExecOutcome
  httpAttempted : Bool
  log : List LogEvent

/-- `ZipcodesAPIClient.execute(params)`, with the transport's behaviour
supplied as an oracle: validate, send the GET, parse the body, classify
the envelope (`status == 'error'` first, then `response.ok`), and return
the envelope; the three `requests` exception classes are re-raised as
`ZipcodesAPIClientError`s. -/
def execute (c : Client) (params : Option RequestParams) (t : TransportResult) : ExecResult :=
  match validateParamsRaise VALIDATION_RULES params with
  | .error errs => { outcome := .validationError errs, httpAttempted := false, log := [] }
  | .ok _ =>
    let preLog := logIf c.debug .makingRequest ++
      (match params with
       | some ps => if !ps.isEmpty then logIf c.debug (.parameters ps) else []
       | none => []) ++
      logIf c.debug .sendingGet
    match t with
    | .timeout m =>
        { outcome := .clientError (.vStr ("Request timeout: " ++ m)) none none,
          httpAttempted := true, log := preLog ++ logIf c.debug (.timeoutEvt m) }
    | .connectionError m =>
        { outcome := .clientError (.vStr ("Connection error: " ++ m)) none none,
          httpAttempted := true, log := preLog ++ logIf c.debug (.connectionEvt m) }
    | .requestException m =>
        { outcome := .clientError (.vStr ("Request failed: " ++ m)) none none,
          httpAttempted := true, log := preLog ++ logIf c.debug (.requestExcEvt m) }
    | .response code body =>
        let preLog2 := preLog ++ logIf c.debug (.responseStatus code)
        match body with
        | .error e =>
            { outcome := .clientError (.vStr ("Invalid JSON response from API: " ++ e)) (some code) none,
              httpAttempted := true, log := preLog2 }
        | .ok env =>
            if pyEq ((envGet env "status").getD .vNone) (.vStr "error") then
              let msg := (envGet env "error").getD (.vStr "Unknown API error")
              { outcome := .clientError msg (some code) (some env),
                httpAttempted := true, log := preLog2 ++ logIf c.debug (.apiError msg) }
            else if !responseOk code then
              let msg := (envGet env "error").getD (.vStr ("HTTP " ++ toString code ++ " error"))
              { outcome := .clientError msg (some code) (some env),
                httpAttempted := true, log := preLog2 ++ logIf c.debug (.httpError msg) }
            else
              { outcome := .success env,
                httpAttempted := true, log := preLog2 ++ logIf c.debug .requestSuccessful }

/-! ### Helper lemmas -/

/-- The validation loop is the ordered concatenation of the per-parameter
message lists, in rule-table iteration order. -/
theorem runRules_eq_join (ps : RequestParams) (rules : List (String × Rule)) :
    runRules ps rules = (rules.map (fun pr => paramErrors ps pr.1 pr.2)).flatten := by
  induction rules with
  | nil => rfl
  | cons hd tl ih =>
      cases hd with
      | mk n r => simp [runRules, ih]

/-- `re.match(r'^[a-zA-Z0-9_-]+$', key)` succeeds exactly on a nonempty
run of class characters, optionally followed by one trailing newline
(Python's `$` matches just before a trailing newline). -/
theorem keyRegexMatches_iff (l : List Char) :
    keyRegexMatches l = true
      ↔ ((l ≠ [] ∧ l.all keyCharOk = true)
          ∨ ∃ t : List Char, l = t ++ ['\n'] ∧ t ≠ [] ∧ t.all keyCharOk = true) := by
  have hnonempty : ∀ m : List Char, (!m.isEmpty) = true ↔ m ≠ [] := by
    intro m
    cases m <;> simp
  unfold keyRegexMatches pyFullMatch
  simp only [Bool.or_eq_true, Bool.and_eq_true, beq_iff_eq, hnonempty]
  constructor
  · rintro (h | ⟨hlast, hdrop⟩)
    · exact Or.inl h
    · right
      rcases List.eq_nil_or_concat l with rfl | ⟨t, a, rfl⟩
      · simp at hlast
      · rw [List.concat_eq_append] at hlast hdrop ⊢
        rw [List.getLast?_concat] at hlast
        have ha : a = '\n' := by simpa using hlast
        subst ha
        rw [List.dropLast_concat] at hdrop
        exact ⟨t, rfl, hdrop⟩
  · rintro (h | ⟨t, rfl, hne, hall⟩)
    · exact Or.inl h
    · right
      constructor
      · simp [List.getLast?_concat]
      · rw [List.dropLast_concat]
        exact ⟨hne, hall⟩

/-! ### Claim theorems -/

/-- **C10**: calling `execute` with `params` omitted (`None`) behaves
exactly like calling it with an empty dict: a `ValidationError` whose
message list contains the missing-`zip` message, and no HTTP request. -/
theorem claim_C10 (c : Client) (t : TransportResult) :
    execute c none t = execute c (some []) t
    ∧ (execute c none t).outcome = .validationError ["Required parameter [zip] is missing."]
    ∧ (execute c none t).httpAttempted = false :=
  ⟨rfl, rfl, rfl⟩

/-- **C2**: when the required `zip` key is absent or bound to the empty
string, `execute` raises a `ValidationError` whose message list contains
(indeed, is exactly) `"Required parameter [zip] is missing."` — so all
further checks for `zip` were skipped — and no HTTP request is attempted
(the result does not depend on the transport oracle `t`). -/
theorem claim_C2 (c : Client) (ps : RequestParams) (t : TransportResult)
    (h : List.lookup "zip" ps = none ∨ List.lookup "zip" ps = some (.vStr "")) :
    (execute c (some ps) t).outcome = .validationError ["Required parameter [zip] is missing."]
    ∧ (execute c (some ps) t).httpAttempted = false := by
  have hpe : paramErrors ps "zip" zipRule = ["Required parameter [zip] is missing."] := by
    unfold paramErrors pyGet
    rcases h with h | h <;> rw [h] <;> rfl
  have hval : validateParamsRaise VALIDATION_RULES (some ps)
      = .error ["Required parameter [zip] is missing."] := by
    simp [validateParamsRaise, VALIDATION_RULES, runRules, hpe]
  exact ⟨by simp [execute, hval], by simp [execute, hval]⟩

/-- Witness for C2 at the concrete input `params = {}`. -/
theorem claim_C2_witness :
    (List.lookup "zip" ([] : RequestParams) = none)
    ∧ ((execute ⟨"k", true, false⟩ (some []) (.timeout "x")).outcome
          = .validationError ["Required parameter [zip] is missing."]
        ∧ (execute ⟨"k", true, false⟩ (some []) (.timeout "x")).httpAttempted = false) :=
  ⟨rfl, claim_C2 ⟨"k", true, false⟩ [] (.timeout "x") (Or.inl rfl)⟩

/-- **C3**: whenever the parsed envelope's `status` field equals
`"error"` and its `error` field is present, `execute` raises a
`ZipcodesAPIClientError` whose message is exactly that `error` value,
carrying the HTTP status code (any code, including 200 and non-2xx codes
— the check runs before the HTTP-status check) and the raw envelope. -/
theorem claim_C3 (c : Client) (p : Option RequestParams) (code : Nat) (env : Envelope) (v : Value)
    (hv : validateParamsRaise VALIDATION_RULES p = .ok ())
    (hs : pyEq ((envGet env "status").getD .vNone) (.vStr "error") = true)
    (he : envGet env "error" = some v) :
    (execute c p (.response code (.ok env))).outcome = .clientError v (some code) (some env) := by
  simp [execute, hv, hs, he]

/-- The envelope `{"status": "error", "error": "Zip code not found"}`. -/
def envErr : Envelope := [("status", .vStr "error"), ("error", .vStr "Zip code not found")]

/-- Witness for C3 at HTTP 200 with the spec's example envelope. -/
theorem claim_C3_witness :
    (validateParamsRaise VALIDATION_RULES (some [("zip", .vStr "64082")]) = .ok ()
      ∧ pyEq ((envGet envErr "status").getD .vNone) (.vStr "error") = true
      ∧ envGet envErr "error" = some (.vStr "Zip code not found"))
    ∧ (execute ⟨"k", true, false⟩ (some [("zip", .vStr "64082")])
          (.response 200 (.ok envErr))).outcome
        = .clientError (.vStr "Zip code not found") (some 200) (some envErr) :=
  ⟨⟨rfl, rfl, rfl⟩,
    claim_C3 ⟨"k", true, false⟩ (some [("zip", .vStr "64082")]) 200 envErr
      (.vStr "Zip code not found") rfl rfl rfl⟩

/-- **C7**: every transport-level failure (timeout, connection failure,
any other request exception) is re-raised as a `ZipcodesAPIClientError`
wrapping a descriptive message of the underlying cause; since `execute`
is a total function into `ExecResult`, no raw transport exception
escapes. -/
theorem claim_C7 (c : Client) (p : Option RequestParams) (m : String)
    (hv : validateParamsRaise VALIDATION_RULES p = .ok ()) :
    (execute c p (.timeout m)).outcome
        = .clientError (.vStr ("Request timeout: " ++ m)) none none
    ∧ (execute c p (.connectionError m)).outcome
        = .clientError (.vStr ("Connection error: " ++ m)) none none
    ∧ (execute c p (.requestException m)).outcome
        = .clientError (.vStr ("Request failed: " ++ m)) none none :=
  ⟨by simp [execute, hv], by simp [execute, hv], by simp [execute, hv]⟩

/-- Witness for C7 at a concrete valid request and timeout message. -/
theorem claim_C7_witness :
    (validateParamsRaise VALIDATION_RULES (some [("zip", .vStr "64082")]) = .ok ())
    ∧ ((execute ⟨"k", true, false⟩ (some [("zip", .vStr "64082")]) (.timeout "timed out")).outcome
          = .clientError (.vStr ("Request timeout: " ++ "timed out")) none none
      ∧ (execute ⟨"k", true, false⟩ (some [("zip", .vStr "64082")])
            (.connectionError "timed out")).outcome
          = .clientError (.vStr ("Connection error: " ++ "timed out")) none none
      ∧ (execute ⟨"k", true, false⟩ (some [("zip", .vStr "64082")])
            (.requestException "timed out")).outcome
          = .clientError (.vStr ("Request failed: " ++ "timed out")) none none) :=
  ⟨rfl, claim_C7 ⟨"k", true, false⟩ (some [("zip", .vStr "64082")]) "timed out" rfl⟩

/-- **C8**: `_validate_params` either accepts (returns) or raises a
`ValidationError` carrying the full ordered list of every accumulated
violation message — the concatenation, in rule-table iteration order, of
each parameter's messages — and it accepts exactly when that full list is
empty, so it never fails fast on the first violation. -/
theorem claim_C8 (rules : List (String × Rule)) (params : Option RequestParams) :
    (validateParamsRaise rules params = .ok ()
      ↔ (rules.map (fun pr => paramErrors (params.getD []) pr.1 pr.2)).flatten = [])
    ∧ ((rules.map (fun pr => paramErrors (params.getD []) pr.1 pr.2)).flatten ≠ [] →
        validateParamsRaise rules params
          = .error ((rules.map (fun pr => paramErrors (params.getD []) pr.1 pr.2)).flatten)) := by
  have hj := runRules_eq_join (params.getD []) rules
  rw [← hj]
  unfold validateParamsRaise
  cases rules with
  | nil => simp [runRules]
  | cons hd tl =>
      simp only [List.isEmpty_cons, if_false, Bool.false_eq_true]
      by_cases he : runRules (params.getD []) (hd :: tl) = []
      · simp [he]
      · simp [he, List.isEmpty_iff]

/-- **C1, counterexample**: for the zip value `""` (which has length ≠ 5),
`execute` does fail with a validation error, but its message list is the
required-missing message and contains neither length-violation message —
the empty string trips the required check, which skips the length checks. -/
theorem claim_C1_counterexample :
    (execute ⟨"k", true, false⟩ (some [("zip", .vStr "")]) (.timeout "t")).outcome
      = .validationError ["Required parameter [zip] is missing."]
    ∧ "Parameter [zip] must be at least 5 characters."
        ∉ ["Required parameter [zip] is missing."]
    ∧ "Parameter [zip] must be at most 5 characters."
        ∉ ["Required parameter [zip] is missing."] :=
  ⟨rfl, by simp, by simp⟩

/-- **C1, amended**: for every *nonempty* string zip value of length ≠ 5,
`execute` fails with a validation error whose message list is exactly the
matching length-violation message (and no HTTP request is attempted);
every zip value of exactly length 5 passes validation.  (A zip value of
`""` instead produces the required-missing message.) -/
theorem claim_C1_amended (c : Client) (t : TransportResult) (s : String) (hne : s ≠ "") :
    (s.length < 5 →
      (execute c (some [("zip", .vStr s)]) t).outcome
          = .validationError ["Parameter [zip] must be at least 5 characters."]
        ∧ (execute c (some [("zip", .vStr s)]) t).httpAttempted = false)
    ∧ (5 < s.length →
      (execute c (some [("zip", .vStr s)]) t).outcome
          = .validationError ["Parameter [zip] must be at most 5 characters."]
        ∧ (execute c (some [("zip", .vStr s)]) t).httpAttempted = false)
    ∧ (s.length = 5 →
      validateParamsRaise VALIDATION_RULES (some [("zip", .vStr s)]) = .ok ()
      ∧ (execute c (some [("zip", .vStr s)]) t).httpAttempted = true) := by
  have hbe : (s == "") = false := by
    simpa using hne
  have hpe : paramErrors [("zip", Value.vStr s)] "zip" zipRule
      = (if s.length < 5 then ["Parameter [zip] must be at least 5 characters."] else [])
        ++ (if 5 < s.length then ["Parameter [zip] must be at most 5 characters."] else []) := by
    simp [paramErrors, pyGet, zipRule, typeCheck, lengthErrors, formatErrors, enumErrors,
      Value.isNone, pyEq, hbe]
    rfl
  refine ⟨?_, ?_, ?_⟩
  · intro h
    have h2 : ¬ 5 < s.length := by omega
    have hval : validateParamsRaise VALIDATION_RULES (some [("zip", Value.vStr s)])
        = .error ["Parameter [zip] must be at least 5 characters."] := by
      simp [validateParamsRaise, VALIDATION_RULES, runRules, hpe, h, h2]
    exact ⟨by simp [execute, hval], by simp [execute, hval]⟩
  · intro h
    have h2 : ¬ s.length < 5 := by omega
    have hval : validateParamsRaise VALIDATION_RULES (some [("zip", Value.vStr s)])
        = .error ["Parameter [zip] must be at most 5 characters."] := by
      simp [validateParamsRaise, VALIDATION_RULES, runRules, hpe, h, h2]
    exact ⟨by simp [execute, hval], by simp [execute, hval]⟩
  · intro h
    have h1 : ¬ s.length < 5 := by omega
    have h2 : ¬ 5 < s.length := by omega
    have hval : validateParamsRaise VALIDATION_RULES (some [("zip", Value.vStr s)])
        = .ok () := by
      simp [validateParamsRaise, VALIDATION_RULES, runRules, hpe, h1, h2]
    refine ⟨hval, ?_⟩
    cases t with
    | timeout m => simp [execute, hval]
    | connectionError m => simp [execute, hval]
    | requestException m => simp [execute, hval]
    | response code body =>
        cases body with
        | error e => simp [execute, hval]
        | ok env =>
            by_cases hs : pyEq ((envGet env "status").getD .vNone) (.vStr "error") = true
            · simp [execute, hval, hs]
            · by_cases hk : responseOk code = true <;> simp [execute, hval, hs, hk]

/-- Witness for the amended C1 at the concrete nonempty input `"1234"`. -/
theorem claim_C1_witness :
    ("1234" ≠ "")
    ∧ (("1234".length < 5 →
        (execute ⟨"k", true, false⟩ (some [("zip", .vStr "1234")]) (.timeout "t")).outcome
            = .validationError ["Parameter [zip] must be at least 5 characters."]
          ∧ (execute ⟨"k", true, false⟩ (some [("zip", .vStr "1234")]) (.timeout "t")).httpAttempted
              = false)
      ∧ (5 < "1234".length →
        (execute ⟨"k", true, false⟩ (some [("zip", .vStr "1234")]) (.timeout "t")).outcome
            = .validationError ["Parameter [zip] must be at most 5 characters."]
          ∧ (execute ⟨"k", true, false⟩ (some [("zip", .vStr "1234")]) (.timeout "t")).httpAttempted
              = false)
      ∧ ("1234".length = 5 →
        validateParamsRaise VALIDATION_RULES (some [("zip", .vStr "1234")]) = .ok ()
        ∧ (execute ⟨"k", true, false⟩ (some [("zip", .vStr "1234")]) (.timeout "t")).httpAttempted
            = true)) :=
  ⟨by decide, claim_C1_amended ⟨"k", true, false⟩ (.timeout "t") "1234" (by decide)⟩

/-- The envelope `{"status": "ok"}` used for the C4 inputs. -/
def envOk : Envelope := [("status", .vStr "ok")]

/-- **C4, counterexample**: HTTP 304 is not a 2xx status, yet `execute`
returns the envelope unchanged instead of failing — the code tests
`response.ok`, which is false only for 4xx/5xx codes. -/
theorem claim_C4_counterexample :
    (execute ⟨"k", true, false⟩ (some [("zip", .vStr "64082")])
        (.response 304 (.ok envOk))).outcome = .success envOk
    ∧ ¬(200 ≤ 304 ∧ 304 < 300) :=
  ⟨rfl, by omega⟩

/-- **C4, amended**: for envelopes whose `status` is not `"error"`, the
HTTP-status check uses `response.ok`, i.e. failure means a 4xx/5xx code:
on such a code `execute` fails with a client error carrying the
envelope's `error` field (or the generic `"HTTP <code> error"` message)
plus status code and raw envelope; on every other code — including
non-2xx codes like 304 — it returns the full parsed envelope unchanged. -/
theorem claim_C4_amended (c : Client) (p : Option RequestParams) (code : Nat) (env : Envelope)
    (hv : validateParamsRaise VALIDATION_RULES p = .ok ())
    (hs : pyEq ((envGet env "status").getD .vNone) (.vStr "error") = false) :
    (400 ≤ code ∧ code < 600 →
      (execute c p (.response code (.ok env))).outcome
        = .clientError ((envGet env "error").getD (.vStr ("HTTP " ++ toString code ++ " error")))
            (some code) (some env))
    ∧ (¬(400 ≤ code ∧ code < 600) →
      (execute c p (.response code (.ok env))).outcome = .success env)
    ∧ (execute c p (.response code (.ok env))).httpAttempted = true := by
  refine ⟨?_, ?_, ?_⟩
  · intro h
    have hro : responseOk code = false := by
      simp [responseOk, h.1, h.2]
    simp [execute, hv, hs, hro]
  · intro h
    have hro : responseOk code = true := by
      simp only [responseOk, Bool.not_eq_true', Bool.and_eq_false_iff]
      rcases Decidable.not_and_iff_or_not.mp h with h' | h'
      · exact Or.inl (by simpa using h')
      · exact Or.inr (by simpa using h')
    simp [execute, hv, hs, hro]
  · by_cases hro : responseOk code = true <;> simp [execute, hv, hs, hro]

/-- Witness for the amended C4 at HTTP 404 with an `"ok"`-status envelope. -/
theorem claim_C4_witness :
    (validateParamsRaise VALIDATION_RULES (some [("zip", .vStr "64082")]) = .ok ()
      ∧ pyEq ((envGet envOk "status").getD .vNone) (.vStr "error") = false)
    ∧ ((400 ≤ 404 ∧ 404 < 600 →
        (execute ⟨"k", true, false⟩ (some [("zip", .vStr "64082")])
            (.response 404 (.ok envOk))).outcome
          = .clientError ((envGet envOk "error").getD (.vStr ("HTTP " ++ toString 404 ++ " error")))
              (some 404) (some envOk))
      ∧ (¬(400 ≤ 404 ∧ 404 < 600) →
        (execute ⟨"k", true, false⟩ (some [("zip", .vStr "64082")])
            (.response 404 (.ok envOk))).outcome = .success envOk)
      ∧ (execute ⟨"k", true, false⟩ (some [("zip", .vStr "64082")])
            (.response 404 (.ok envOk))).httpAttempted = true) :=
  ⟨⟨rfl, rfl⟩,
    claim_C4_amended ⟨"k", true, false⟩ (some [("zip", .vStr "64082")]) 404 envOk rfl rfl⟩

/-- 32 letters followed by a newline: contains a character outside
`[A-Za-z0-9_-]`, yet is accepted. -/
def keyNl : String := "aaaaaaaaaaaaaaaaaaaaaaaaaaaaaaaa\n"

/-- **C5, counterexample**: the key of 32 letters followed by `"\n"`
contains a character outside letters/digits/hyphen/underscore, so the
claim says construction must fail — but construction succeeds, because
Python's `$` in `re.match(r'^[a-zA-Z0-9_-]+$', ...)` also matches just
before a trailing newline. -/
theorem claim_C5_counterexample :
    Client.init keyNl true false
      = .ok { api_key := keyNl, secure := true, debug := false }
    ∧ '\n' ∈ keyNl.data ∧ keyCharOk '\n' = false :=
  ⟨rfl, by decide, rfl⟩

/-- **C5, amended**: construction fails with a configuration error
exactly when the key is empty or whitespace-only, or the key is not a
nonempty run of letters/digits/hyphen/underscore *optionally followed by
one trailing newline* (Python's `$` semantics), or the key with hyphens
and underscores removed (a trailing newline still counts) has fewer than
32 characters.  A key of exactly 32 qualifying characters succeeds. -/
theorem claim_C5_amended (key : String) (sec dbg : Bool) :
    (∃ msg, Client.init key sec dbg = .error msg)
      ↔ (key.data.all pyIsSpace = true
          ∨ ¬((key.data ≠ [] ∧ key.data.all keyCharOk = true)
              ∨ ∃ t : List Char, key.data = t ++ ['\n'] ∧ t ≠ [] ∧ t.all keyCharOk = true)
          ∨ (strippedKey key).length < 32) := by
  rw [← keyRegexMatches_iff]
  unfold Client.init validateApiKey
  by_cases h1 : (key = "" || key.data.all pyIsSpace) = true
  · have hsp : key.data.all pyIsSpace = true := by
      by_cases hk : key = ""
      · subst hk
        rfl
      · simpa [hk] using h1
    simp [h1, hsp]
  · have hk : ¬ key = "" := by
      intro hk
      exact h1 (by simp [hk])
    have h1' : key.data.all pyIsSpace = false := by
      cases hb : key.data.all pyIsSpace
      · rfl
      · exact absurd (by simp [hb]) h1
    by_cases h2 : keyRegexMatches key.data = true
    · by_cases h3 : (strippedKey key).length < 32
      · simp [h1, h2, h3]
      · simp [hk, h1', h2, h3]
    · simp [h1, h2]

/-- A `string`-typed rule with an enum set, for exercising C6. -/
def ruleC6 : Rule := { type := "string", enum := some [.vStr "a"] }

/-- **C6, counterexample**: for a `string`-typed rule with enum
`["a"]` and the non-string value `0`, the claim says the enum-violation
message must be emitted even though the type check failed — but the
validator emits only the type-mismatch message: the `continue` after a
failed type check skips the enum check. -/
theorem claim_C6_counterexample :
    runRules [("p", Value.vInt 0)] [("p", ruleC6)] = ["Parameter [p] must be a string."]
    ∧ "Parameter [p] must be one of: a." ∉ runRules [("p", Value.vInt 0)] [("p", ruleC6)] := by
  refine ⟨rfl, ?_⟩
  rw [show runRules [("p", Value.vInt 0)] [("p", ruleC6)]
        = ["Parameter [p] must be a string."] from rfl]
  simp

/-- **C6, amended**: for a present, non-required-missing value, the
validator appends the enum check's messages after the type-specific
messages exactly when the iteration did not `continue`; it `continue`s —
skipping the enum check — precisely when `int(value)`/`float(value)`
fails for an `integer`/`number` rule or a `string`-typed value is not a
string (for `boolean`/`array`/other types the enum check always runs). -/
theorem claim_C6_amended (params : RequestParams) (name : String) (rule : Rule)
    (hreq : (rule.required
        && ((pyGet params name).isNone || pyEq (pyGet params name) (.vStr ""))) = false)
    (hpres : (pyGet params name).isNone = false) :
    paramErrors params name rule
      = (typeCheck name rule (pyGet params name)).1
        ++ (if (typeCheck name rule (pyGet params name)).2 = true then []
            else enumErrors name rule (pyGet params name))
    ∧ ((typeCheck name rule (pyGet params name)).2 = true ↔
        ((rule.type = "integer" ∧ pyIntOfValue (pyGet params name) = none)
          ∨ (rule.type = "number" ∧ pyFloatOfValue (pyGet params name) = none)
          ∨ (rule.type = "string" ∧ (pyGet params name).isStr = false))) := by
  constructor
  · unfold paramErrors
    rw [hreq, hpres]
    by_cases htc : (typeCheck name rule (pyGet params name)).2 = true <;> simp [htc]
  · unfold typeCheck
    split
    · rename_i heq
      cases hi : pyIntOfValue (pyGet params name) <;> simp [heq, hi]
    · rename_i heq
      cases hf : pyFloatOfValue (pyGet params name) <;> simp [heq, hf]
    · rename_i heq
      cases hv : pyGet params name <;> simp [heq, hv, Value.isStr]
    · rename_i heq
      simp [heq]
    · rename_i heq
      simp [heq]
    · rename_i hne1 hne2 hne3 hne4 hne5
      simp only [Bool.false_eq_true, false_iff]
      rintro (⟨h, _⟩ | ⟨h, _⟩ | ⟨h, _⟩)
      · exact hne1 h
      · exact hne2 h
      · exact hne3 h

/-- Witness for the amended C6 at the concrete inputs of the
counterexample (a `string`-typed enum rule and the value `0`). -/
theorem claim_C6_witness :
    ((ruleC6.required
        && ((pyGet [("p", Value.vInt 0)] "p").isNone
            || pyEq (pyGet [("p", Value.vInt 0)] "p") (.vStr ""))) = false
      ∧ (pyGet [("p", Value.vInt 0)] "p").isNone = false)
    ∧ (paramErrors [("p", Value.vInt 0)] "p" ruleC6
        = (typeCheck "p" ruleC6 (pyGet [("p", Value.vInt 0)] "p")).1
          ++ (if (typeCheck "p" ruleC6 (pyGet [("p", Value.vInt 0)] "p")).2 = true then []
              else enumErrors "p" ruleC6 (pyGet [("p", Value.vInt 0)] "p"))
      ∧ ((typeCheck "p" ruleC6 (pyGet [("p", Value.vInt 0)] "p")).2 = true ↔
          ((ruleC6.type = "integer" ∧ pyIntOfValue (pyGet [("p", Value.vInt 0)] "p") = none)
            ∨ (ruleC6.type = "number" ∧ pyFloatOfValue (pyGet [("p", Value.vInt 0)] "p") = none)
            ∨ (ruleC6.type = "string"
                ∧ (pyGet [("p", Value.vInt 0)] "p").isStr = false)))) :=
  ⟨⟨rfl, rfl⟩, claim_C6_amended [("p", Value.vInt 0)] "p" ruleC6 rfl rfl⟩

/-- **C9**: the `secure` and `debug` flags affect neither the outcome of
`execute` (the returned envelope, or the raised error with its message,
status code and attached envelope) nor whether the HTTP request is
attempted, nor whether construction succeeds — only the debug log
differs. -/
theorem claim_C9 (key : String) (s₁ d₁ s₂ d₂ : Bool) (p : Option RequestParams)
    (t : TransportResult) :
    (execute ⟨key, s₁, d₁⟩ p t).outcome = (execute ⟨key, s₂, d₂⟩ p t).outcome
    ∧ (execute ⟨key, s₁, d₁⟩ p t).httpAttempted = (execute ⟨key, s₂, d₂⟩ p t).httpAttempted
    ∧ (Client.init key s₁ d₁).toOption.isSome = (Client.init key s₂ d₂).toOption.isSome := by
  have hinit : (Client.init key s₁ d₁).toOption.isSome
      = (Client.init key s₂ d₂).toOption.isSome := by
    unfold Client.init
    cases validateApiKey key <;> rfl
  refine ⟨?_, ?_, hinit⟩ <;>
  · unfold execute
    cases hv : validateParamsRaise VALIDATION_RULES p with
    | error errs => rfl
    | ok u =>
        cases t with
        | timeout m => rfl
        | connectionError m => rfl
        | requestException m => rfl
        | response code body =>
            cases body with
            | error e => rfl
            | ok env =>
                by_cases hs : pyEq ((envGet env "status").getD .vNone) (.vStr "error") = true
                · simp [hs]
                · by_cases hk : responseOk code = true <;> simp [hs, hk]

end Zipcodes
